import Mathlib

/-!
# Registration & Payment Reconciliation core — shallow embedding

A shallow embedding of the Express handlers in `src/api/index.js` of the
`quhockey` ticket-sale application, together with proofs of the invariants
stated in its specification.

The persistence store is modelled as a `List Registration` (the single
`registrations` table).  The payment provider (Stripe) and the HTTP layer are
external collaborators: their outcomes (signature verification result, live
session status, created checkout session) enter the handlers as parameters,
exactly at the boundary where the source code awaits them.
-/

namespace QuHockey

/-- A row of the `registrations` table (see the `CREATE TABLE` statement in
`src/api/index.js`).  `num_tickets` and `total_amount` are JS numbers holding
integers; `stripe_session_id` is nullable; `payment_status` defaults to
`"pending"`. -/
structure Registration where
  id : Nat
  first_name : String
  last_name : String
  email : String
  phone : String
  num_tickets : Int
  total_amount : Int
  stripe_session_id : Option String
  payment_status : String
  deriving Repr, DecidableEq

/-- JS truthiness of a possibly-missing string field: `undefined` and the
empty string are falsy, every other string is truthy. -/
def truthyS : Option String → Bool
  | none => false
  | some s => !(s = "")

/-- JS `a || b` for a possibly-missing string `a` with a string default `b`
(used for `process.env.ADMIN_USER || 'admin'` and friends). -/
def jsOr (o : Option String) (d : String) : String :=
  match o with
  | none => d
  | some s => if s = "" then d else s

/-- Characters skipped by JS `parseInt` before reading digits. -/
def jsWhitespace (c : Char) : Bool :=
  c = ' ' || c = '\t' || c = '\n' || c = '\r' || c = '\x0b' || c = '\x0c'

/-- Value of a nonempty run of leading decimal digits, `none` if the list does
not start with a digit. -/
def leadingDigitsVal (l : List Char) : Option Nat :=
  let ds := l.takeWhile Char.isDigit
  if ds.isEmpty then none else
    some (ds.foldl (fun a c => a * 10 + (c.toNat - '0'.toNat)) 0)

/-- JS `parseInt(s, 10)`: skip leading whitespace, read an optional sign, then
the longest prefix of decimal digits; `none` models `NaN`. -/
def parseIntJS (s : String) : Option Int :=
  let l := s.data.dropWhile jsWhitespace
  match l with
  | '-' :: rest => (leadingDigitsVal rest).map (fun n => -(n : Int))
  | '+' :: rest => (leadingDigitsVal rest).map (fun n => (n : Int))
  | _ => (leadingDigitsVal l).map (fun n => (n : Int))

/-- The idempotent paid-transition: the SQL statement
`UPDATE registrations SET payment_status = 'paid' WHERE stripe_session_id = ?`
executed by both the webhook handler and the success handler. -/
def markPaid (sid : String) (db : List Registration) : List Registration :=
  db.map fun r =>
    if r.stripe_session_id = some sid then { r with payment_status := "paid" } else r

/-! ## Order Intake — `POST /create-checkout-session` -/

/-- The purchase request body; each field may be absent (`undefined`). -/
structure PurchaseReq where
  first_name : Option String
  last_name : Option String
  email : Option String
  phone : Option String
  num_tickets : Option String
  deriving Repr, DecidableEq

/-- The checkout session returned by the provider on successful creation. -/
structure StripeCreated where
  id : String
  url : String
  deriving Repr, DecidableEq

/-- HTTP outcome of the intake handler. -/
inductive IntakeResp
  | badRequest (msg : String)
  | redirect303 (url : String)
  | serverError (msg : String)
  deriving Repr, DecidableEq

/-- Result of the intake handler: the response and the table afterwards. -/
structure IntakeOutcome where
  resp : IntakeResp
  db : List Registration
  deriving Repr, DecidableEq

/-- Ticket unit price in cents (`TICKET_PRICE = 5000`). -/
def TICKET_PRICE : Int := 5000

/-- `app.post('/create-checkout-session')`.  `nextId` is the row id generated
by the store for the insert (`result.lastInsertRowid`); `create` is the
outcome of `stripe.checkout.sessions.create` (an exception lands in the
`catch` block, producing a 500 after the row was already inserted). -/
def createCheckoutSessionHandler (req : PurchaseReq) (nextId : Nat)
    (create : Except String StripeCreated) (db : List Registration) : IntakeOutcome :=
  if !(truthyS req.first_name && truthyS req.last_name && truthyS req.email
        && truthyS req.phone && truthyS req.num_tickets) then
    ⟨.badRequest "All fields are required.", db⟩
  else
    match parseIntJS (req.num_tickets.getD "") with
    | none => ⟨.badRequest "Please select between 1 and 20 tickets.", db⟩
    | some tickets =>
      if tickets < 1 ∨ tickets > 20 then
        ⟨.badRequest "Please select between 1 and 20 tickets.", db⟩
      else
        let totalAmount := tickets * TICKET_PRICE
        let row : Registration :=
          ⟨nextId, req.first_name.getD "", req.last_name.getD "", req.email.getD "",
            req.phone.getD "", tickets, totalAmount, none, "pending"⟩
        let db1 := db ++ [row]
        match create with
        | .error _ => ⟨.serverError "Something went wrong. Please try again.", db1⟩
        | .ok s =>
          let db2 := db1.map fun r =>
            if r.id = nextId then { r with stripe_session_id := some s.id } else r
          ⟨.redirect303 s.url, db2⟩

/-! ## Confirmation Listener — `POST /webhook` -/

/-- A verified provider event: its `type` and the checkout-session id found at
`event.data.object.id`. -/
structure WEvent where
  type : String
  sessionId : String
  deriving Repr, DecidableEq

/-- HTTP outcome of the webhook handler: a 400 text response, or the 200 JSON
acknowledgment `received: true`. -/
inductive WebhookResp
  | badRequest (msg : String)
  | received
  deriving Repr, DecidableEq

/-- `app.post('/webhook')`.  `secret` is `process.env.STRIPE_WEBHOOK_SECRET`
(possibly unset or empty); `ev` is the outcome of
`stripe.webhooks.constructEvent(req.body, sig, webhookSecret)` — an error
models a signature-verification failure. -/
def webhookHandler (secret : Option String) (ev : Except String WEvent)
    (db : List Registration) : WebhookResp × List Registration :=
  if !(truthyS secret) then
    (.badRequest "Webhook secret not configured", db)
  else
    match ev with
    | .error msg => (.badRequest ("Webhook Error: " ++ msg), db)
    | .ok event =>
      if event.type = "checkout.session.completed" then
        (.received, markPaid event.sessionId db)
      else
        (.received, db)

/-! ## Confirmation Poller — `GET /success` -/

/-- The live session object returned by `stripe.checkout.sessions.retrieve`. -/
structure StripeSession where
  payment_status : String
  deriving Repr, DecidableEq

/-- Result of the success handler: whether the provider was queried, whether
the paid-transition was executed, the table afterwards, and whether the
success page was rendered (it always is). -/
structure SuccessOutcome where
  queried : Bool
  applied : Bool
  db : List Registration
  rendered : Bool
  deriving Repr, DecidableEq

/-- `app.get('/success')`.  `sessionId` is `req.query.session_id` (absent or a
string; `if (sessionId)` is falsy for the empty string); `retrieve` is the
provider's live-status lookup, whose failure is caught and logged. -/
def successHandler (sessionId : Option String)
    (retrieve : String → Except String StripeSession)
    (db : List Registration) : SuccessOutcome :=
  match sessionId with
  | none => ⟨false, false, db, true⟩
  | some sid =>
    if sid = "" then ⟨false, false, db, true⟩
    else
      match retrieve sid with
      | .error _ => ⟨true, false, db, true⟩
      | .ok s =>
        if s.payment_status = "paid" then ⟨true, true, markPaid sid db, true⟩
        else ⟨true, false, db, true⟩

/-! ## Admin Listing — `GET /admin` -/

/-- Character-wise `s.startsWith(p)` (JS `String.prototype.startsWith`). -/
def strStartsWith (s p : String) : Bool :=
  go s.data p.data
where
  go : List Char → List Char → Bool
    | _, [] => true
    | [], _ :: _ => false
    | c :: cs, d :: ds => c = d && go cs ds

/-- JS `s.split(sep)` for a one-character separator: the list of (possibly
empty) segments between occurrences of `sep`. -/
def splitOnChar (sep : Char) (s : String) : List String :=
  (go s.data).map String.mk
where
  go : List Char → List (List Char)
    | [] => [[]]
    | c :: cs =>
      if c = sep then [] :: go cs
      else
        match go cs with
        | [] => [[c]]
        | h :: t => (c :: h) :: t

/-- Six-bit value of a base64 alphabet character. -/
def b64Val (c : Char) : Option Nat :=
  if 'A' ≤ c ∧ c ≤ 'Z' then some (c.toNat - 'A'.toNat)
  else if 'a' ≤ c ∧ c ≤ 'z' then some (c.toNat - 'a'.toNat + 26)
  else if '0' ≤ c ∧ c ≤ '9' then some (c.toNat - '0'.toNat + 52)
  else if c = '+' then some 62
  else if c = '/' then some 63
  else none

/-- Pack a list of six-bit values into bytes, dropping a trailing partial
byte, as Node's lenient base64 decoder does. -/
def b64Pack : List Nat → List Nat
  | a :: b :: c :: d :: rest =>
      (a * 4 + b / 16) :: ((b % 16) * 16 + c / 4) :: ((c % 4) * 64 + d) :: b64Pack rest
  | [a, b] => [a * 4 + b / 16]
  | [a, b, c] => [a * 4 + b / 16, (b % 16) * 16 + c / 4]
  | _ => []

/-- `Buffer.from(s, 'base64').toString('ascii')`: decode base64 (ignoring
non-alphabet characters, including padding) and re-read each byte masked to
7 bits as an ASCII character. -/
def b64ToAscii (s : String) : String :=
  String.mk ((b64Pack (s.data.filterMap b64Val)).map fun b => Char.ofNat (b % 128))

/-- Summary statistics computed by the admin page: total registrations, total
tickets sold over paid registrations, total revenue over paid registrations
(the two `reduce` calls run over `registrations.filter(paid)`). -/
def adminStats (db : List Registration) : Nat × Int × Int :=
  let paidRegistrations := db.filter fun r => r.payment_status = "paid"
  (db.length,
   paidRegistrations.foldl (fun sum r => sum + r.num_tickets) 0,
   paidRegistrations.foldl (fun sum r => sum + r.total_amount) 0)

/-- HTTP outcome of the admin handler: a 401 challenge (with the
`WWW-Authenticate: Basic` header) or the 200 listing with its statistics. -/
inductive AdminResp
  | challenge (msg : String)
  | listing (stats : Nat × Int × Int)
  deriving Repr, DecidableEq

/-- `app.get('/admin')`.  `envUser` and `envPass` are `ADMIN_USER` and
`ADMIN_PASSWORD`; `authHeader` is the `Authorization` header; the table is
returned unchanged (the handler only reads it). -/
def adminHandler (envUser envPass : Option String) (authHeader : Option String)
    (db : List Registration) : AdminResp × List Registration :=
  let adminUser := jsOr envUser "admin"
  let adminPass := jsOr envPass "admin"
  match authHeader with
  | none => (.challenge "Authentication required", db)
  | some h =>
    if !(strStartsWith h "Basic ") then (.challenge "Authentication required", db)
    else
      let credentials := b64ToAscii (((splitOnChar ' ' h).get? 1).getD "")
      let parts := splitOnChar ':' credentials
      let user := ((parts.get? 0).getD "")
      let pass := parts.get? 1
      if user = adminUser ∧ pass = some adminPass then
        (.listing (adminStats db), db)
      else
        (.challenge "Invalid credentials", db)


/-! ## Helper lemmas -/

/-- A record update that rewrites `payment_status` to its current value is the
identity. -/
lemma update_status_self (r : Registration) (h : r.payment_status = "paid") :
    { r with payment_status := "paid" } = r := by
  cases r
  simp_all

/-- If every registration matching the session id is already paid, the
paid-transition leaves the table unchanged (this covers the no-match case
vacuously). -/
lemma markPaid_eq_self (S : String) (db : List Registration)
    (h : ∀ r ∈ db, r.stripe_session_id = some S → r.payment_status = "paid") :
    markPaid S db = db := by
  induction db with
  | nil => rfl
  | cons r rest ih =>
    simp only [markPaid, List.map_cons]
    have h1 : (if r.stripe_session_id = some S then
        { r with payment_status := "paid" } else r) = r := by
      by_cases hc : r.stripe_session_id = some S
      · rw [if_pos hc]
        exact update_status_self r (h r (List.mem_cons_self r rest) hc)
      · simp [hc]
    rw [h1]
    have h2 := ih (fun x hx => h x (List.mem_cons_of_mem r hx))
    simpa [markPaid] using h2

/-- Applying the paid-transition twice is the same as applying it once. -/
lemma markPaid_markPaid (S : String) (db : List Registration) :
    markPaid S (markPaid S db) = markPaid S db := by
  induction db with
  | nil => rfl
  | cons r rest ih =>
    simp only [markPaid, List.map_cons] at *
    by_cases hc : r.stripe_session_id = some S
    · simp [hc, ih]
    · simp [hc, ih]

/-- `foldl` with addition starting from an accumulator equals the accumulator
plus the sum of the mapped list. -/
lemma foldl_add_eq_sum (f : Registration → Int) (l : List Registration) (a : Int) :
    l.foldl (fun s r => s + f r) a = a + (l.map f).sum := by
  induction l generalizing a with
  | nil => simp
  | cons r rest ih => simp [ih]; ring

/-- The admin handler never mutates the table. -/
lemma adminHandler_preserves (envU envP hdr : Option String) (db : List Registration) :
    (adminHandler envU envP hdr db).2 = db := by
  unfold adminHandler
  cases hdr with
  | none => rfl
  | some h =>
    dsimp only
    split
    · rfl
    · split
      · rfl
      · rfl

/-! ## Sample data used by witnesses -/

def regPaid : Registration :=
  ⟨1, "Jane", "Doe", "jane@example.com", "555-0100", 3, 15000, some "S123", "paid"⟩

def regPending : Registration :=
  ⟨2, "John", "Roe", "john@example.com", "555-0101", 2, 10000, some "S456", "pending"⟩

/-! ## Claim theorems -/

/-- Claim C1: the paid-transition keyed by a checkout-session id is
idempotent: when every registration carrying session id `S` is already paid,
applying the transition for `S` again changes nothing (and it is a total
function, so no error is possible); moreover applying it twice always equals
applying it once. -/
theorem paidTransition_idempotent (S : String) (db : List Registration)
    (h : ∀ r ∈ db, r.stripe_session_id = some S → r.payment_status = "paid") :
    markPaid S db = db ∧ markPaid S (markPaid S db) = markPaid S db :=
  ⟨markPaid_eq_self S db h, markPaid_markPaid S db⟩

theorem paidTransition_idempotent_witness :
    markPaid "S123" [regPaid, regPending] = [regPaid, regPending] ∧
    markPaid "S123" (markPaid "S123" [regPaid, regPending]) =
      markPaid "S123" [regPaid, regPending] :=
  paidTransition_idempotent "S123" [regPaid, regPending] (by decide)


/-- Claim C5: the webhook responds 400 — leaving every registration untouched
— exactly when the secret is not configured (unset or empty) or signature
verification fails; every verified event is answered 200 with the
`received: true` acknowledgment. -/
theorem webhook_response_spec (secret : Option String) (ev : Except String WEvent)
    (db : List Registration) :
    ((∃ m, (webhookHandler secret ev db).1 = .badRequest m) ↔
      (truthyS secret = false ∨ ∃ m, ev = .error m)) ∧
    ((truthyS secret = false ∨ ∃ m, ev = .error m) →
      (webhookHandler secret ev db).2 = db) ∧
    (∀ e, ev = .ok e → truthyS secret = true →
      (webhookHandler secret ev db).1 = .received) := by
  unfold webhookHandler
  by_cases hs : truthyS secret = true
  · cases ev with
    | error m => simp [hs]
    | ok e =>
      by_cases ht : e.type = "checkout.session.completed" <;> simp [hs, ht]
  · have hs2 : truthyS secret = false := by
      cases hv : truthyS secret
      · rfl
      · exact absurd hv hs
    simp [hs2]

theorem webhook_response_spec_witness :
    (webhookHandler (some "whsec") (.ok ⟨"checkout.session.completed", "S123"⟩) []).1 =
      .received :=
  (webhook_response_spec (some "whsec")
      (.ok ⟨"checkout.session.completed", "S123"⟩) []).2.2
    ⟨"checkout.session.completed", "S123"⟩ rfl rfl

/-- Claim C6: a verified event whose kind is not `checkout.session.completed`,
or whose session id matches no registration, leaves the whole table unchanged
and is still acknowledged with 200 `received: true`. -/
theorem webhook_frame_spec (secret : Option String) (e : WEvent)
    (db : List Registration)
    (hs : truthyS secret = true)
    (h : e.type ≠ "checkout.session.completed" ∨
      ∀ r ∈ db, r.stripe_session_id ≠ some e.sessionId) :
    webhookHandler secret (.ok e) db = (.received, db) := by
  unfold webhookHandler
  by_cases ht : e.type = "checkout.session.completed"
  · have hnm : ∀ r ∈ db, r.stripe_session_id ≠ some e.sessionId := by
      rcases h with h1 | h2
      · exact absurd ht h1
      · exact h2
    have : markPaid e.sessionId db = db :=
      markPaid_eq_self e.sessionId db (fun r hr hsid => absurd hsid (hnm r hr))
    simp [hs, ht, this]
  · simp [hs, ht]

theorem webhook_frame_spec_witness :
    webhookHandler (some "whsec") (.ok ⟨"payment_intent.created", "S999"⟩) [regPaid] =
      (.received, [regPaid]) :=
  webhook_frame_spec (some "whsec") ⟨"payment_intent.created", "S999"⟩ [regPaid]
    rfl (by decide)

/-- Claim C8: the admin listing counts every registration, but its
tickets-sold and revenue aggregates range over exactly the paid
registrations; prepending a pending registration leaves both aggregates
unchanged while increasing the count; and the handler never mutates the
table. -/
theorem admin_stats_paid_only (envU envP hdr : Option String)
    (db : List Registration) (r : Registration)
    (hp : r.payment_status = "pending") :
    (adminStats db).1 = db.length ∧
    (adminStats db).2.1 =
      ((db.filter fun x => x.payment_status = "paid").map
        Registration.num_tickets).sum ∧
    (adminStats db).2.2 =
      ((db.filter fun x => x.payment_status = "paid").map
        Registration.total_amount).sum ∧
    (adminStats (r :: db)).1 = db.length + 1 ∧
    (adminStats (r :: db)).2.1 = (adminStats db).2.1 ∧
    (adminStats (r :: db)).2.2 = (adminStats db).2.2 ∧
    (adminHandler envU envP hdr db).2 = db := by
  have hfilter : (r :: db).filter (fun x => x.payment_status = "paid") =
      db.filter (fun x => x.payment_status = "paid") := by
    simp [List.filter_cons, hp]
  refine ⟨rfl, ?_, ?_, rfl, ?_, ?_, adminHandler_preserves envU envP hdr db⟩
  · simpa using foldl_add_eq_sum Registration.num_tickets
      (db.filter fun x => x.payment_status = "paid") 0
  · simpa using foldl_add_eq_sum Registration.total_amount
      (db.filter fun x => x.payment_status = "paid") 0
  · simp [adminStats, hfilter]
  · simp [adminStats, hfilter]

theorem admin_stats_paid_only_witness :
    (adminStats (regPending :: [regPaid])).2.1 = (adminStats [regPaid]).2.1 :=
  (admin_stats_paid_only none none none [regPaid] regPending rfl).2.2.2.2.1

/-- Claim C9: with `ADMIN_USER` and `ADMIN_PASSWORD` unset, the admin endpoint
falls back to the default credentials `admin` / `admin`: a request whose
`Authorization` header carries Basic credentials decoding to `admin:admin` is
answered with the 200 listing, not rejected. -/
theorem admin_default_credentials (db : List Registration) :
    b64ToAscii "YWRtaW46YWRtaW4=" = "admin:admin" ∧
    (adminHandler none none (some "Basic YWRtaW46YWRtaW4=") db).1 =
      .listing (adminStats db) := by
  constructor
  · rfl
  · rfl


/-! ## Order-intake claims -/

/-- JS `String.prototype.trim`: strip whitespace from both ends (used only to
state the specification's "empty after trimming" condition — the handler
itself never trims). -/
def trimJS (s : String) : String :=
  String.mk (((s.data.dropWhile jsWhitespace).reverse.dropWhile jsWhitespace).reverse)

/-- A purchase request whose first name is a single space: non-empty, hence
truthy, but empty after trimming. -/
def reqSpaceName : PurchaseReq :=
  ⟨some " ", some "Doe", some "jane@example.com", some "555-0100", some "3"⟩

/-- Claim C3 counterexample: a request whose `first_name` is `" "` — empty
after trimming — is nevertheless accepted: the handler validates only JS
truthiness, so it answers with the 303 redirect and persists a registration
instead of rejecting with 400. -/
theorem validation_no_trim_cex :
    trimJS " " = "" ∧
    (createCheckoutSessionHandler reqSpaceName 7 (.ok ⟨"S777", "https://pay"⟩) []).resp =
      .redirect303 "https://pay" ∧
    (createCheckoutSessionHandler reqSpaceName 7 (.ok ⟨"S777", "https://pay"⟩) []).db =
      [⟨7, " ", "Doe", "jane@example.com", "555-0100", 3, 15000, some "S777", "pending"⟩] := by
  refine ⟨rfl, ?_, ?_⟩ <;> decide

/-- Claim C3 (amended): when any of the five fields is missing or the empty
string (no trimming is applied), or when `parseInt(num_tickets, 10)` is `NaN`
or yields a value outside `[1, 20]`, the handler rejects with a 400 message
and the table is unchanged. -/
theorem validation_rejects_amended (req : PurchaseReq) (nextId : Nat)
    (create : Except String StripeCreated) (db : List Registration)
    (h : truthyS req.first_name = false ∨ truthyS req.last_name = false ∨
      truthyS req.email = false ∨ truthyS req.phone = false ∨
      truthyS req.num_tickets = false ∨
      (∀ n, parseIntJS (req.num_tickets.getD "") = some n → n < 1 ∨ 20 < n)) :
    (∃ m, (createCheckoutSessionHandler req nextId create db).resp = .badRequest m) ∧
    (createCheckoutSessionHandler req nextId create db).db = db := by
  unfold createCheckoutSessionHandler
  by_cases hv : (truthyS req.first_name && truthyS req.last_name && truthyS req.email
      && truthyS req.phone && truthyS req.num_tickets) = true
  · have hconj := hv
    simp only [Bool.and_eq_true] at hconj
    obtain ⟨⟨⟨⟨h1, h2⟩, h3⟩, h4⟩, h5⟩ := hconj
    have hparse : ∀ n, parseIntJS (req.num_tickets.getD "") = some n → n < 1 ∨ 20 < n := by
      rcases h with hx | hx | hx | hx | hx | hx
      · rw [h1] at hx; exact absurd hx (by simp)
      · rw [h2] at hx; exact absurd hx (by simp)
      · rw [h3] at hx; exact absurd hx (by simp)
      · rw [h4] at hx; exact absurd hx (by simp)
      · rw [h5] at hx; exact absurd hx (by simp)
      · exact hx
    cases hp : parseIntJS (req.num_tickets.getD "") with
    | none => simp [hv, hp]
    | some n =>
      have hrange := hparse n hp
      have : (n < 1 ∨ n > 20) := by omega
      simp [hv, hp, this]
  · have hvf : (truthyS req.first_name && truthyS req.last_name && truthyS req.email
        && truthyS req.phone && truthyS req.num_tickets) = false := by
      revert hv
      cases truthyS req.first_name && truthyS req.last_name && truthyS req.email
        && truthyS req.phone && truthyS req.num_tickets <;> simp
    simp [hvf]

theorem validation_rejects_amended_witness :
    (∃ m, (createCheckoutSessionHandler ⟨none, some "Doe", some "jane@example.com",
        some "555-0100", some "3"⟩ 1 (.ok ⟨"S1", "https://pay"⟩) []).resp =
      .badRequest m) ∧
    (createCheckoutSessionHandler ⟨none, some "Doe", some "jane@example.com",
        some "555-0100", some "3"⟩ 1 (.ok ⟨"S1", "https://pay"⟩) []).db = [] :=
  validation_rejects_amended ⟨none, some "Doe", some "jane@example.com",
      some "555-0100", some "3"⟩ 1 (.ok ⟨"S1", "https://pay"⟩) [] (Or.inl rfl)

/-- Attaching a session id by row id touches no row whose id differs. -/
lemma attach_map_id (nextId : Nat) (sid : String) (db : List Registration)
    (hfresh : ∀ r ∈ db, r.id ≠ nextId) :
    (db.map fun r => if r.id = nextId then { r with stripe_session_id := some sid }
      else r) = db := by
  induction db with
  | nil => rfl
  | cons r rest ih =>
    simp only [List.map_cons]
    rw [if_neg (hfresh r (List.mem_cons_self r rest)),
      ih (fun x hx => hfresh x (List.mem_cons_of_mem r hx))]

/-- Shape of the intake handler on a valid request: exactly one row is
appended; its ticket count is the parsed value, its amount is the ticket
count times the unit price, and it is created pending. -/
lemma intake_valid_shape (req : PurchaseReq) (nextId : Nat)
    (create : Except String StripeCreated) (db : List Registration) (n : Int)
    (hf : truthyS req.first_name = true) (hl : truthyS req.last_name = true)
    (he : truthyS req.email = true) (hph : truthyS req.phone = true)
    (ht : truthyS req.num_tickets = true)
    (hn : parseIntJS (req.num_tickets.getD "") = some n)
    (h1 : 1 ≤ n) (h2 : n ≤ 20)
    (hfresh : ∀ r ∈ db, r.id ≠ nextId) :
    ∃ row, (createCheckoutSessionHandler req nextId create db).db = db ++ [row] ∧
      row.id = nextId ∧ row.num_tickets = n ∧ row.total_amount = n * TICKET_PRICE ∧
      row.payment_status = "pending" ∧
      (∀ m, (createCheckoutSessionHandler req nextId create db).resp ≠ .badRequest m) := by
  unfold createCheckoutSessionHandler
  have hcond : (truthyS req.first_name && truthyS req.last_name && truthyS req.email
      && truthyS req.phone && truthyS req.num_tickets) = true := by
    simp [hf, hl, he, hph, ht]
  have hrange : ¬(n < 1 ∨ n > 20) := by omega
  cases create with
  | error e =>
    refine ⟨⟨nextId, req.first_name.getD "", req.last_name.getD "", req.email.getD "",
      req.phone.getD "", n, n * TICKET_PRICE, none, "pending"⟩, ?_⟩
    simp [hcond, hn, hrange]
  | ok s =>
    refine ⟨⟨nextId, req.first_name.getD "", req.last_name.getD "", req.email.getD "",
      req.phone.getD "", n, n * TICKET_PRICE, some s.id, "pending"⟩, ?_⟩
    simp only [hcond, hn, Bool.not_true, Bool.false_eq_true, if_false, if_neg hrange]
    refine ⟨?_, by simp, by simp, by simp, by simp, by simp⟩
    rw [List.map_append, attach_map_id nextId s.id db hfresh]
    simp

/-- Claim C4: a valid purchase request whose ticket count parses to
`n ∈ [1, 20]` creates exactly one new registration, with
`total_amount = n × 5000`, `payment_status = "pending"`, and
`total_amount = num_tickets × 5000` (the buyer never sets the amount
independently). -/
theorem intake_creates_single_pending (req : PurchaseReq) (nextId : Nat)
    (create : Except String StripeCreated) (db : List Registration) (n : Int)
    (hf : truthyS req.first_name = true) (hl : truthyS req.last_name = true)
    (he : truthyS req.email = true) (hph : truthyS req.phone = true)
    (ht : truthyS req.num_tickets = true)
    (hn : parseIntJS (req.num_tickets.getD "") = some n)
    (h1 : 1 ≤ n) (h2 : n ≤ 20)
    (hfresh : ∀ r ∈ db, r.id ≠ nextId) :
    ∃ row, (createCheckoutSessionHandler req nextId create db).db = db ++ [row] ∧
      row.num_tickets = n ∧ row.total_amount = n * 5000 ∧
      row.total_amount = row.num_tickets * 5000 ∧
      row.payment_status = "pending" := by
  obtain ⟨row, hdb, _, hnum, hamt, hst, _⟩ :=
    intake_valid_shape req nextId create db n hf hl he hph ht hn h1 h2 hfresh
  exact ⟨row, hdb, hnum, hamt.trans rfl, by rw [hamt, hnum]; rfl, hst⟩

def reqJane : PurchaseReq :=
  ⟨some "Jane", some "Doe", some "jane@example.com", some "555-0100", some "3"⟩

theorem intake_creates_single_pending_witness :
    ∃ row, (createCheckoutSessionHandler reqJane 1 (.ok ⟨"S123", "https://pay"⟩) []).db =
        [] ++ [row] ∧
      row.num_tickets = 3 ∧ row.total_amount = 3 * 5000 ∧
      row.total_amount = row.num_tickets * 5000 ∧
      row.payment_status = "pending" :=
  intake_creates_single_pending reqJane 1 (.ok ⟨"S123", "https://pay"⟩) [] 3
    rfl rfl rfl rfl rfl (by decide) (by decide) (by decide)
    (fun r hr => absurd hr (List.not_mem_nil r))

/-- Claim C10: the handler accepts any ticket-count string whose leading
characters parse in base 10 to `n ∈ [1, 20]` — the string need not be an
integer literal — and then records `num_tickets = n` and
`total_amount = n × 5000` rather than rejecting. -/
theorem intake_parseInt_prefix_accepts (req : PurchaseReq) (nextId : Nat)
    (create : Except String StripeCreated) (db : List Registration)
    (v : String) (n : Int)
    (hf : truthyS req.first_name = true) (hl : truthyS req.last_name = true)
    (he : truthyS req.email = true) (hph : truthyS req.phone = true)
    (hv : req.num_tickets = some v) (hvne : v ≠ "")
    (hn : parseIntJS v = some n) (h1 : 1 ≤ n) (h2 : n ≤ 20)
    (hfresh : ∀ r ∈ db, r.id ≠ nextId) :
    (∀ m, (createCheckoutSessionHandler req nextId create db).resp ≠ .badRequest m) ∧
    ∃ row, (createCheckoutSessionHandler req nextId create db).db = db ++ [row] ∧
      row.num_tickets = n ∧ row.total_amount = n * 5000 := by
  have ht : truthyS req.num_tickets = true := by
    rw [hv]; simp [truthyS, hvne]
  have hn2 : parseIntJS (req.num_tickets.getD "") = some n := by
    rw [hv]; exact hn
  obtain ⟨row, hdb, _, hnum, hamt, _, hnb⟩ :=
    intake_valid_shape req nextId create db n hf hl he hph ht hn2 h1 h2 hfresh
  exact ⟨hnb, row, hdb, hnum, hamt⟩

def req3abc : PurchaseReq :=
  ⟨some "Jane", some "Doe", some "jane@example.com", some "555-0100", some "3abc"⟩

theorem intake_parseInt_prefix_accepts_witness :
    parseIntJS "3abc" = some 3 ∧
    ((∀ m, (createCheckoutSessionHandler req3abc 1 (.ok ⟨"S9", "https://pay"⟩) []).resp ≠
        .badRequest m) ∧
      ∃ row, (createCheckoutSessionHandler req3abc 1 (.ok ⟨"S9", "https://pay"⟩) []).db =
          [] ++ [row] ∧
        row.num_tickets = 3 ∧ row.total_amount = 3 * 5000) :=
  ⟨by decide,
    intake_parseInt_prefix_accepts req3abc 1 (.ok ⟨"S9", "https://pay"⟩) [] "3abc" 3
      rfl rfl rfl rfl rfl (by decide) (by decide) (by decide) (by decide)
      (fun r hr => absurd hr (List.not_mem_nil r))⟩


/-! ## Confirmation-poller claims -/

/-- A provider stub that reports every session as paid. -/
def retrieveAlwaysPaid : String → Except String StripeSession :=
  fun _ => .ok ⟨"paid"⟩

/-- A registration whose stored session id is the empty string. -/
def regEmptySid : Registration :=
  ⟨3, "Ann", "Lee", "ann@example.com", "555-0102", 1, 5000, some "", "pending"⟩

/-- Claim C7 counterexample: with the `session_id` query parameter present but
equal to the empty string, the handler performs no provider query and applies
no transition — even though the provider would report the session as paid and
a matching pending registration exists — because `if (sessionId)` treats the
empty string as absent. -/
theorem success_empty_session_cex :
    (some "" : Option String) ≠ none ∧
    retrieveAlwaysPaid "" = .ok ⟨"paid"⟩ ∧
    (successHandler (some "") retrieveAlwaysPaid [regEmptySid]).queried = false ∧
    (successHandler (some "") retrieveAlwaysPaid [regEmptySid]).applied = false ∧
    (successHandler (some "") retrieveAlwaysPaid [regEmptySid]).db = [regEmptySid] ∧
    regEmptySid.payment_status = "pending" :=
  ⟨by simp, rfl, rfl, rfl, rfl, rfl⟩

/-- Claim C7 (amended): the handler queries the provider exactly when
`session_id` is present with a non-empty value, applies the paid-transition
exactly when additionally the provider reports the session paid, and in every
other case (absent or empty parameter, unpaid status, failed query) leaves
the table unchanged; the success page is rendered in every case. -/
theorem success_poller_spec_amended (sid : Option String)
    (retrieve : String → Except String StripeSession) (db : List Registration) :
    ((successHandler sid retrieve db).queried = true ↔
      ∃ s, sid = some s ∧ s ≠ "") ∧
    ((successHandler sid retrieve db).applied = true ↔
      ∃ s, sid = some s ∧ s ≠ "" ∧
        ∃ sess, retrieve s = .ok sess ∧ sess.payment_status = "paid") ∧
    (∀ s, sid = some s → (successHandler sid retrieve db).applied = true →
      (successHandler sid retrieve db).db = markPaid s db) ∧
    ((successHandler sid retrieve db).applied = false →
      (successHandler sid retrieve db).db = db) ∧
    (successHandler sid retrieve db).rendered = true := by
  unfold successHandler
  cases sid with
  | none => simp
  | some s =>
    by_cases hse : s = ""
    · simp [hse]
    · cases hr : retrieve s with
      | error e => simp [hse, hr]
      | ok sess =>
        by_cases hps : sess.payment_status = "paid"
        · simp only [hse, hr, hps, if_neg hse, if_pos rfl]
          refine ⟨by simp [hse], ?_, ?_, ?_, rfl⟩
          · constructor
            · intro _
              exact ⟨s, rfl, hse, sess, hr, hps⟩
            · intro _
              rfl
          · intro t ht _
            cases ht
            rfl
          · intro hc
            cases hc
        · simp only [hse, hr, if_neg hse, if_neg hps]
          refine ⟨by simp [hse], ?_, ?_, ?_, rfl⟩
          · constructor
            · intro hc
              cases hc
            · rintro ⟨t, ht, -, sess2, hr2, hp2⟩
              cases ht
              rw [hr] at hr2
              cases hr2
              exact absurd hp2 hps
          · intro t ht hc
            cases hc
          · intro _
            rfl

theorem success_poller_spec_amended_witness :
    (successHandler (some "S123") retrieveAlwaysPaid [regPaid]).applied = true :=
  (success_poller_spec_amended (some "S123") retrieveAlwaysPaid [regPaid]).2.1.mpr
    ⟨"S123", rfl, by decide, ⟨"paid"⟩, rfl, rfl⟩


/-! ## The payment-status state machine -/

/-- One inbound request handled by the system, viewed as a transition on the
registrations table.  Every handler that can run is represented; the external
inputs (request body, generated row id, provider outcomes, credentials) are
arbitrary. -/
inductive Step : List Registration → List Registration → Prop
  | intake (req : PurchaseReq) (nextId : Nat) (create : Except String StripeCreated)
      (db : List Registration) :
      Step db (createCheckoutSessionHandler req nextId create db).db
  | webhook (secret : Option String) (ev : Except String WEvent)
      (db : List Registration) :
      Step db (webhookHandler secret ev db).2
  | success (sid : Option String) (retrieve : String → Except String StripeSession)
      (db : List Registration) :
      Step db (successHandler sid retrieve db).db
  | admin (envU envP hdr : Option String) (db : List Registration) :
      Step db (adminHandler envU envP hdr db).2

/-- Tables reachable from the empty table by handling requests. -/
inductive Reachable : List Registration → Prop
  | init : Reachable []
  | step {db dc : List Registration} : Reachable db → Step db dc → Reachable dc

/-- Every registration's status is `pending` or `paid`. -/
def statusOk (db : List Registration) : Prop :=
  ∀ r ∈ db, r.payment_status = "pending" ∨ r.payment_status = "paid"

/-- A transition is status-monotonic: no row disappears, each existing row
either keeps its status or moves `pending → paid` (never `paid → pending`),
and every newly appearing row is created `pending`. -/
def stepMono (db dc : List Registration) : Prop :=
  db.length ≤ dc.length ∧
  (∀ i r rc, db.get? i = some r → dc.get? i = some rc →
    rc.payment_status = r.payment_status ∨
      (r.payment_status = "pending" ∧ rc.payment_status = "paid")) ∧
  (∀ i rc, db.length ≤ i → dc.get? i = some rc → rc.payment_status = "pending")

lemma stepMono_refl (db : List Registration) : stepMono db db := by
  refine ⟨le_refl _, ?_, ?_⟩
  · intro i r rc h1 h2
    rw [h1] at h2
    cases h2
    exact Or.inl rfl
  · intro i rc hlen h2
    have : db.get? i = none := List.get?_eq_none.mpr hlen
    rw [this] at h2
    cases h2

/-- The paid-transition is status-monotonic on any table whose statuses are
well-formed. -/
lemma stepMono_markPaid (sid : String) (db : List Registration) (hok : statusOk db) :
    stepMono db (markPaid sid db) := by
  refine ⟨by simp [markPaid], ?_, ?_⟩
  · intro i r rc h1 h2
    rw [markPaid, List.get?_map, h1] at h2
    cases h2
    dsimp only
    by_cases hc : r.stripe_session_id = some sid
    · rw [if_pos hc]
      rcases hok r (List.get?_mem h1) with hp | hp
      · exact Or.inr ⟨hp, rfl⟩
      · exact Or.inl (by simp [hp])
    · rw [if_neg hc]
      exact Or.inl rfl
  · intro i rc hlen h2
    rw [markPaid, List.get?_map, List.get?_eq_none.mpr hlen] at h2
    cases h2

/-- Mapping a status-preserving function over the table and appending one
pending row is status-monotonic. -/
lemma stepMono_map_append (db : List Registration) (g : Registration → Registration)
    (row : Registration)
    (hg : ∀ r, (g r).payment_status = r.payment_status)
    (hrow : row.payment_status = "pending") :
    stepMono db (db.map g ++ [row]) := by
  refine ⟨by simp, ?_, ?_⟩
  · intro i r rc h1 h2
    have hlt : i < db.length := by
      rcases List.get?_eq_some.mp h1 with ⟨h, _⟩
      exact h
    rw [List.get?_append (by simpa using hlt), List.get?_map, h1] at h2
    cases h2
    exact Or.inl (hg r)
  · intro i rc hlen h2
    rw [List.get?_append_right (by simpa using hlen)] at h2
    rcases Nat.lt_or_ge (i - (db.map g).length) 1 with hi | hi
    · have : i - (db.map g).length = 0 := by omega
      rw [this] at h2
      cases h2
      exact hrow
    · have : ([row].get? (i - (db.map g).length)) = none := by
        apply List.get?_eq_none.mpr
        simpa using hi
      rw [this] at h2
      cases h2

/-- The table produced by the intake handler: either unchanged, or a
status-preserving remap of the old rows (session-id attachment) with a single
pending row appended. -/
lemma intake_db_characterization (req : PurchaseReq) (nextId : Nat)
    (create : Except String StripeCreated) (db : List Registration) :
    (createCheckoutSessionHandler req nextId create db).db = db ∨
    ∃ g row, (∀ r : Registration, (g r).payment_status = r.payment_status) ∧
      row.payment_status = "pending" ∧
      (createCheckoutSessionHandler req nextId create db).db = db.map g ++ [row] := by
  unfold createCheckoutSessionHandler
  by_cases hv : (truthyS req.first_name && truthyS req.last_name && truthyS req.email
      && truthyS req.phone && truthyS req.num_tickets) = true
  · cases hp : parseIntJS (req.num_tickets.getD "") with
    | none => simp [hv, hp]
    | some n =>
      by_cases hr : (n < 1 ∨ n > 20)
      · simp [hv, hp, hr]
      · cases create with
        | error e =>
          right
          refine ⟨id, ⟨nextId, req.first_name.getD "", req.last_name.getD "",
            req.email.getD "", req.phone.getD "", n, n * TICKET_PRICE, none,
            "pending"⟩, fun r => rfl, rfl, ?_⟩
          simp [hv, hp, hr]
        | ok s =>
          right
          refine ⟨(fun r => if r.id = nextId then
              { r with stripe_session_id := some s.id } else r),
            ⟨nextId, req.first_name.getD "", req.last_name.getD "",
              req.email.getD "", req.phone.getD "", n, n * TICKET_PRICE,
              some s.id, "pending"⟩, ?_, rfl, ?_⟩
          · intro r
            dsimp only
            by_cases hc : r.id = nextId
            · rw [if_pos hc]
            · rw [if_neg hc]
          · simp only [hv, hp, Bool.not_true, Bool.false_eq_true, if_false,
              if_neg hr, List.map_append]
            simp
  · have hvf : (truthyS req.first_name && truthyS req.last_name && truthyS req.email
        && truthyS req.phone && truthyS req.num_tickets) = false := by
      revert hv
      cases truthyS req.first_name && truthyS req.last_name && truthyS req.email
        && truthyS req.phone && truthyS req.num_tickets <;> simp
    simp [hvf]

/-- The table produced by the webhook handler: unchanged, or a
paid-transition. -/
lemma webhook_db_characterization (secret : Option String) (ev : Except String WEvent)
    (db : List Registration) :
    (webhookHandler secret ev db).2 = db ∨
    ∃ s, (webhookHandler secret ev db).2 = markPaid s db := by
  unfold webhookHandler
  by_cases hs : truthyS secret = true
  · cases ev with
    | error m => simp [hs]
    | ok e =>
      by_cases ht : e.type = "checkout.session.completed"
      · right
        exact ⟨e.sessionId, by simp [hs, ht]⟩
      · simp [hs, ht]
  · have hs2 : truthyS secret = false := by
      revert hs
      cases truthyS secret <;> simp
    simp [hs2]

/-- The table produced by the success handler: unchanged, or a
paid-transition. -/
lemma success_db_characterization (sid : Option String)
    (retrieve : String → Except String StripeSession) (db : List Registration) :
    (successHandler sid retrieve db).db = db ∨
    ∃ s, (successHandler sid retrieve db).db = markPaid s db := by
  unfold successHandler
  cases sid with
  | none => simp
  | some s =>
    by_cases hse : s = ""
    · simp [hse]
    · cases hr : retrieve s with
      | error e => simp [hse, hr]
      | ok sess =>
        by_cases hps : sess.payment_status = "paid"
        · right
          exact ⟨s, by simp [hse, hr, hps]⟩
        · simp [hse, hr, hps]

/-- Every step from a well-formed table is status-monotonic. -/
lemma step_stepMono {db dc : List Registration} (hok : statusOk db)
    (h : Step db dc) : stepMono db dc := by
  cases h with
  | intake req nextId create db =>
    rcases intake_db_characterization req nextId create db with h1 | ⟨g, row, hg, hrow, h2⟩
    · rw [h1]; exact stepMono_refl db
    · rw [h2]; exact stepMono_map_append db g row hg hrow
  | webhook secret ev db =>
    rcases webhook_db_characterization secret ev db with h1 | ⟨sd, h2⟩
    · rw [h1]; exact stepMono_refl db
    · rw [h2]; exact stepMono_markPaid sd db hok
  | success sid retrieve db =>
    rcases success_db_characterization sid retrieve db with h1 | ⟨sd, h2⟩
    · rw [h1]; exact stepMono_refl db
    · rw [h2]; exact stepMono_markPaid sd db hok
  | admin envU envP hdr db =>
    rw [adminHandler_preserves envU envP hdr db]
    exact stepMono_refl db

/-- Every step preserves well-formedness of the statuses. -/
lemma step_statusOk {db dc : List Registration} (hok : statusOk db)
    (h : Step db dc) : statusOk dc := by
  have hmarkPaid : ∀ sd, statusOk (markPaid sd db) := by
    intro sd rc hrc
    rw [markPaid, List.mem_map] at hrc
    obtain ⟨r, hr, hfr⟩ := hrc
    by_cases hc : r.stripe_session_id = some sd
    · rw [if_pos hc] at hfr
      rw [← hfr]
      exact Or.inr rfl
    · rw [if_neg hc] at hfr
      rw [← hfr]
      exact hok r hr
  cases h with
  | intake req nextId create db =>
    rcases intake_db_characterization req nextId create db with h1 | ⟨g, row, hg, hrow, h2⟩
    · rw [h1]; exact hok
    · rw [h2]
      intro rc hrc
      rcases List.mem_append.mp hrc with hm | hm
      · rw [List.mem_map] at hm
        obtain ⟨r, hr, hfr⟩ := hm
        rw [← hfr, hg r]
        exact hok r hr
      · rw [List.mem_singleton] at hm
        rw [hm]
        exact Or.inl hrow
  | webhook secret ev db =>
    rcases webhook_db_characterization secret ev db with h1 | ⟨sd, h2⟩
    · rw [h1]; exact hok
    · rw [h2]; exact hmarkPaid sd
  | success sid retrieve db =>
    rcases success_db_characterization sid retrieve db with h1 | ⟨sd, h2⟩
    · rw [h1]; exact hok
    · rw [h2]; exact hmarkPaid sd
  | admin envU envP hdr db =>
    rw [adminHandler_preserves envU envP hdr db]
    exact hok

/-- Every reachable table has well-formed statuses. -/
lemma reachable_statusOk {db : List Registration} (h : Reachable db) : statusOk db := by
  induction h with
  | init => intro r hr; cases hr
  | step _ hs ih => exact step_statusOk ih hs

/-- Claim C2: in every reachable table each registration's status is
`pending` or `paid`; and every operation on a reachable table either keeps a
registration's status or moves it `pending → paid`, never `paid → pending`,
while every freshly created registration starts `pending`. -/
theorem payment_status_monotonic (db dc : List Registration) :
    (Reachable db → statusOk db) ∧
    (Reachable db → Step db dc → stepMono db dc) :=
  ⟨fun h => reachable_statusOk h,
   fun h hs => step_stepMono (reachable_statusOk h) hs⟩

def wDb0 : List Registration :=
  (createCheckoutSessionHandler reqJane 1 (.ok ⟨"S123", "https://pay"⟩) []).db

def wDb1 : List Registration :=
  (webhookHandler (some "whsec")
    (.ok ⟨"checkout.session.completed", "S123"⟩) wDb0).2

theorem payment_status_monotonic_witness : statusOk wDb0 ∧ stepMono wDb0 wDb1 := by
  have hreach : Reachable wDb0 :=
    Reachable.step Reachable.init
      (Step.intake reqJane 1 (.ok ⟨"S123", "https://pay"⟩) [])
  have hstep : Step wDb0 wDb1 :=
    Step.webhook (some "whsec") (.ok ⟨"checkout.session.completed", "S123"⟩) wDb0
  exact ⟨(payment_status_monotonic wDb0 wDb1).1 hreach,
    (payment_status_monotonic wDb0 wDb1).2 hreach hstep⟩

end QuHockey
